import Mathlib

/-!
Verification development for the points/credits purchase backend.

The repository is a Node/Express application with several near-duplicate
server variants. The definitions below are a shallow embedding of the
code paths the claims are about:

* the Stripe webhook endpoints and the `handleSuccessfulPayment` variants
  (server.js lines 296-326, 433-476, 705-745, 1033-1071, 1170-1218;
  api/webhook.js lines 15-73; unnamed/part_004 lines 351-406);
* the checkout-session endpoints (server.js lines 384-420 and 803-839;
  api/webhook.js second document lines 75-118; part_004 lines 310-348);
* the balance query (`/api/check-credits`, server.js lines 86-88 and
  api/check-credits.js) and the payment-success lookup
  (api/payment-success.js).

JavaScript numbers that may be NaN are modelled as `Option Int`
(`none` = NaN); JS truthiness and `parseInt` are modelled explicitly.
Firestore `runTransaction` is modelled as a staging function producing
the list of writes, committed all-or-nothing; server timestamps and the
Stripe `payment_intent` pass-through field are omitted as opaque.
External collaborators (the HMAC function of the Stripe signature
scheme, JSON parsing, the gateway session factory) are parameters.
-/

/-- A JavaScript number that is either an integer or NaN (`none`). -/
abbrev JsNum := Option Int

/-- JS addition: NaN is absorbing. -/
def jsAdd : JsNum → JsNum → JsNum
  | some a, some b => some (a + b)
  | _, _ => none

/-- JS `v || 0` for a number: 0 and NaN are falsy, so both yield 0. -/
def jsOrZero : JsNum → Int
  | some a => a
  | none => 0

/-- JS truthiness of a number: NaN and 0 are falsy. -/
def jsTruthyNum : JsNum → Bool
  | some a => a != 0
  | none => false

/-- JS truthiness of a possibly-undefined string: undefined and the empty
string are falsy. -/
def jsTruthyStr : Option String → Bool
  | some s => s != ""
  | none => false

/-- Value of a nonempty list of decimal digit characters. -/
def digitsVal (l : List Char) : Nat :=
  l.foldl (fun acc c => acc * 10 + (c.toNat - 48)) 0

/-- JS `parseInt(str, 10)` on ordinary inputs: optional sign followed by
the longest decimal digit prefix; `none` (NaN) when no digits are found. -/
def parseIntJs (str : String) : Option Int :=
  match str.toList with
  | [] => none
  | c :: rest =>
    if c = '-' then
      let ds := rest.takeWhile Char.isDigit
      if ds.isEmpty then none else some (-(digitsVal ds : Int))
    else if c = '+' then
      let ds := rest.takeWhile Char.isDigit
      if ds.isEmpty then none else some (digitsVal ds : Int)
    else
      let ds := (c :: rest).takeWhile Char.isDigit
      if ds.isEmpty then none else some (digitsVal ds : Int)

/-- String coercion of a possibly-undefined string value, as in a JS
template literal (undefined prints as "undefined"). -/
def jsKeyStr : Option String → String
  | some s => s
  | none => "undefined"

/-- Association-list lookup by string key (first match). -/
def lookupStr {α : Type} : List (String × α) → String → Option α
  | [], _ => none
  | (k, v) :: rest, key => if k = key then some v else lookupStr rest key

/-- Association-list write: replace the first binding of the key, or
append a new one (Firestore `set`/`update` on a document id). -/
def setStr {α : Type} : List (String × α) → String → α → List (String × α)
  | [], key, v => [(key, v)]
  | (k, w) :: rest, key, v =>
    if k = key then (key, v) :: rest else (k, w) :: setStr rest key v

/-- A Stripe checkout-session object as seen by the webhook handlers:
its id, payment status, `client_reference_id`, the metadata fields the
code reads (`userId`, `points`, `credits`), and `amount_total`. -/
structure Session where
  id : String
  payment_status : String
  client_reference_id : Option String
  metaUserId : Option String
  metaPoints : Option String
  metaCredits : Option String
  amount_total : Int
deriving Repr, DecidableEq

/-- A verified Stripe event: its type and the session in `data.object`. -/
structure Event where
  type : String
  session : Session
deriving Repr, DecidableEq

/-- A document of the top-level `purchases` collection
(server.js lines 459-468 and 1206-1214; timestamps omitted). -/
structure Purchase where
  userId : String
  points : JsNum
  amount : Int
  sessionId : String
  status : String
deriving Repr, DecidableEq

/-- A document of a user's `purchases` subcollection
(server.js lines 1196-1203; timestamps omitted). -/
structure SubPurchase where
  points : JsNum
  amount : Int
  sessionId : String
  status : String
deriving Repr, DecidableEq

/-- A document of a user's `purchases` subcollection as written by the
part_004 handler (paymentId and timestamp omitted as opaque). -/
structure SubPurchase004 where
  points : JsNum
  amount : Int
  status : String
  previousPoints : Int
  newTotal : JsNum
deriving Repr, DecidableEq

/-- A document of the `failedPayments` collection (server.js lines
731-736: sessionId, error message, metadata; timestamp omitted). -/
structure FailedPayment where
  sessionId : String
  error : String
  metaUserId : Option String
  metaPoints : Option String
deriving Repr, DecidableEq

/-- The Firestore state the handlers touch: the `users` collection
(points per user document), the top-level `purchases` collection, the
per-user `purchases` subcollections (tagged with the owning user), and
the `failedPayments` collection. -/
structure Db where
  users : List (String × JsNum)
  purchases : List Purchase
  userPurchases : List (String × SubPurchase)
  userPurchases004 : List (String × SubPurchase004)
  failedPayments : List FailedPayment
deriving Repr, DecidableEq

/-- Read a user document's points field; `none` = document absent. -/
def getUser (s : Db) (uid : String) : Option JsNum :=
  lookupStr s.users uid

/-- A write staged inside a Firestore transaction. -/
inductive Write where
  | setUserPoints (uid : String) (pts : JsNum)
  | addPurchase (p : Purchase)
  | addSubPurchase (uid : String) (p : SubPurchase)
  | addSubPurchase004 (uid : String) (p : SubPurchase004)
deriving Repr, DecidableEq

/-- Apply one staged write to the database state. -/
def applyWrite (s : Db) : Write → Db
  | .setUserPoints uid pts => { s with users := setStr s.users uid pts }
  | .addPurchase p => { s with purchases := s.purchases ++ [p] }
  | .addSubPurchase uid p =>
      { s with userPurchases := s.userPurchases ++ [(uid, p)] }
  | .addSubPurchase004 uid p =>
      { s with userPurchases004 := s.userPurchases004 ++ [(uid, p)] }

/-- Apply a list of staged writes in order. -/
def applyWrites (s : Db) (ws : List Write) : Db :=
  ws.foldl applyWrite s

/-- Firestore `runTransaction`: the body reads the snapshot and stages
writes; a thrown error or an environment-injected transient failure
(`transient = some msg`) commits nothing, otherwise all staged writes
commit together. Returns the observable state and the error, if any. -/
def runTx (stage : Db → Except String (List Write)) (transient : Option String)
    (s : Db) : Db × Option String :=
  match transient with
  | some e => (s, some e)
  | none =>
    match stage s with
    | .error e => (s, some e)
    | .ok ws => (applyWrites s ws, none)

/-- pointsToAdd as computed by the server.js handlers:
`parseInt(session.metadata.points, 10)` (NaN when the field is missing
or not numeric). -/
def parsedMetaPoints (sess : Session) : JsNum :=
  sess.metaPoints.bind parseIntJs

/-- The points value staged for the user document by the upserting
handler (server.js lines 446-457): `pointsToAdd` for a missing document
(`transaction.set`), `(data().points || 0) + pointsToAdd` otherwise
(`transaction.update`). -/
def userDocNewPoints (s : Db) (uid : String) (pts : JsNum) : JsNum :=
  match getUser s uid with
  | none => pts
  | some cur => jsAdd (some (jsOrZero cur)) pts

/-- handleSuccessfulPayment, server.js lines 433-476: upserts the user
document and stages one completed record in the top-level `purchases`
collection, inside one transaction. A missing/empty metadata userId
makes `doc(userId)` throw before any write. -/
def handleSuccessfulPayment433 (sess : Session) (s : Db) :
    Except String (List Write) :=
  match sess.metaUserId with
  | none => .error "invalid document path"
  | some uid =>
    if uid = "" then .error "invalid document path"
    else
      let pointsToAdd := parsedMetaPoints sess
      .ok [Write.setUserPoints uid (userDocNewPoints s uid pointsToAdd),
           Write.addPurchase
             ⟨uid, pointsToAdd, sess.amount_total, sess.id, "completed"⟩]

/-- handleSuccessfulPayment, server.js lines 1170-1218: requires the user
document to exist, updates its points, and stages one completed record
in the user's subcollection plus one in the top-level `purchases`
collection, inside one transaction. -/
def handleSuccessfulPayment1170 (sess : Session) (s : Db) :
    Except String (List Write) :=
  match sess.metaUserId with
  | none => .error "invalid document path"
  | some uid =>
    if uid = "" then .error "invalid document path"
    else
      match getUser s uid with
      | none => .error "User not found"
      | some cur =>
        let pointsToAdd := parsedMetaPoints sess
        let newPoints := jsAdd (some (jsOrZero cur)) pointsToAdd
        .ok [Write.setUserPoints uid newPoints,
             Write.addSubPurchase uid
               ⟨pointsToAdd, sess.amount_total, sess.id, "completed"⟩,
             Write.addPurchase
               ⟨uid, pointsToAdd, sess.amount_total, sess.id, "completed"⟩]

/-- handleSuccessfulPayment, api/webhook.js lines 15-38: user id from
`client_reference_id`, points from `metadata?.points ? parseInt(...) : 0`
rejected when falsy (0 or NaN), then a transaction updating only the
user document points. No purchase record is created. -/
def handleSuccessfulPaymentApi (sess : Session) (s : Db) :
    Except String (List Write) :=
  if ¬ jsTruthyStr sess.client_reference_id then
    .error "No user ID provided in session"
  else
    let uid := jsKeyStr sess.client_reference_id
    let points : JsNum :=
      if jsTruthyStr sess.metaPoints then parseIntJs (jsKeyStr sess.metaPoints)
      else some 0
    if ¬ jsTruthyNum points then
      .error "No points value provided in session metadata"
    else
      match getUser s uid with
      | none => .error "User document not found"
      | some cur =>
        .ok [Write.setUserPoints uid (jsAdd (some (jsOrZero cur)) points)]

/-- handleSuccessfulPayment, part_004 lines 351-406: rejects falsy
metadata userId/points strings, requires the user document, updates its
points by `parseInt(points)`, and stages one completed record in the
user's subcollection, inside one transaction. -/
def handleSuccessfulPayment004 (sess : Session) (s : Db) :
    Except String (List Write) :=
  if ¬ jsTruthyStr sess.metaUserId ∨ ¬ jsTruthyStr sess.metaPoints then
    .error "Missing metadata"
  else
    let uid := jsKeyStr sess.metaUserId
    match getUser s uid with
    | none => .error "User not found"
    | some cur =>
      let currentPoints := jsOrZero cur
      let parsed := parseIntJs (jsKeyStr sess.metaPoints)
      let newPoints := jsAdd (some currentPoints) parsed
      .ok [Write.setUserPoints uid newPoints,
           Write.addSubPurchase004 uid
             ⟨parsed, sess.amount_total, "completed", currentPoints, newPoints⟩]

/-- Result of one webhook request: HTTP status, resulting database
state, and how many times the credit transaction was attempted. -/
structure WebhookOutcome where
  status : Nat
  state : Db
  txAttempts : Nat
deriving Repr, DecidableEq

/-- The webhook endpoint of server.js lines 705-745:
`stripe.webhooks.constructEvent` recomputes the HMAC signature over the
raw body with the shared secret and compares it to the header, then
parses; any failure returns 400 with nothing processed. On success the
endpoint acknowledges with 200 immediately, and only for a
`checkout.session.completed` event whose `payment_status` is `paid`
runs the credit handler once; on its failure it appends one
`failedPayments` record. The HMAC, the JSON parser, the credit handler
and a possible transient store failure are parameters. -/
def webhookEndpoint705 (hmac : String → String → String)
    (secret rawBody sig : String) (parse : String → Option Event)
    (stage : Session → Db → Except String (List Write))
    (transient : Option String) (s : Db) : WebhookOutcome :=
  if hmac secret rawBody = sig then
    match parse rawBody with
    | none => ⟨400, s, 0⟩
    | some ev =>
      if ev.type = "checkout.session.completed" then
        if ev.session.payment_status = "paid" then
          match runTx (stage ev.session) transient s with
          | (s2, none) => ⟨200, s2, 1⟩
          | (s2, some e) =>
            ⟨200,
             { s2 with failedPayments := s2.failedPayments ++
                 [⟨ev.session.id, e, ev.session.metaUserId,
                   ev.session.metaPoints⟩] },
             1⟩
        else ⟨200, s, 0⟩
      else ⟨200, s, 0⟩
  else ⟨400, s, 0⟩

/-- The webhook endpoint of api/webhook.js lines 40-73: same signature
verification, but no `payment_status` filter, a 500 response on handler
failure with no failure record, and 200 with `received` otherwise. -/
def webhookEndpointApi (hmac : String → String → String)
    (secret rawBody sig : String) (parse : String → Option Event)
    (transient : Option String) (s : Db) : WebhookOutcome :=
  if hmac secret rawBody = sig then
    match parse rawBody with
    | none => ⟨400, s, 0⟩
    | some ev =>
      if ev.type = "checkout.session.completed" then
        match runTx (handleSuccessfulPaymentApi ev.session) transient s with
        | (s2, none) => ⟨200, s2, 1⟩
        | (s2, some _) => ⟨500, s2, 1⟩
      else ⟨200, s, 0⟩
  else ⟨400, s, 0⟩

/-- A checkout-session creation request sent to the Payment Gateway:
a single line item (unit amount in minor units and quantity) and the
`{userId, points}` metadata. -/
structure GatewayReq where
  unitAmount : Int
  quantity : Int
  metaUserId : String
  metaPoints : String
deriving Repr, DecidableEq

/-- Total price of a gateway request in minor units. -/
def totalMinorUnits (r : GatewayReq) : Int :=
  r.unitAmount * r.quantity

/-- The session object the Payment Gateway returns for a creation
request: its id and redirect URL. -/
structure GatewaySession where
  id : String
  url : String

/-- Result of one checkout-endpoint request: HTTP status, the list of
gateway creation calls made, and the URL or session id returned. -/
structure CheckoutOutcome where
  status : Nat
  calls : List GatewayReq
  urlOut : Option String
  sessionIdOut : Option String
deriving Repr, DecidableEq

/-- /api/create-points-checkout, server.js lines 384-420: rejects falsy
or out-of-bounds points (`!points || !userId || points < 10 ||
points > 5000`) with 400 and no gateway call; otherwise creates one
session with `unit_amount: points * 10`, quantity 1 and
`{userId, points}` metadata and returns its URL. -/
def createPointsCheckout384 (gateway : GatewayReq → GatewaySession)
    (points : JsNum) (userId : Option String) : CheckoutOutcome :=
  match points, userId with
  | some p, some uid =>
    if p = 0 ∨ uid = "" ∨ p < 10 ∨ 5000 < p then ⟨400, [], none, none⟩
    else
      let req : GatewayReq := ⟨p * 10, 1, uid, toString p⟩
      ⟨200, [req], some (gateway req).url, none⟩
  | _, _ => ⟨400, [], none, none⟩

/-- /api/create-points-checkout, server.js lines 803-839: same
validation and line item as the lines 384-420 variant, but responds
with the created session id instead of the URL. -/
def createPointsCheckout803 (gateway : GatewayReq → GatewaySession)
    (points : JsNum) (userId : Option String) : CheckoutOutcome :=
  match points, userId with
  | some p, some uid =>
    if p = 0 ∨ uid = "" ∨ p < 10 ∨ 5000 < p then ⟨400, [], none, none⟩
    else
      let req : GatewayReq := ⟨p * 10, 1, uid, toString p⟩
      ⟨200, [req], none, some (gateway req).id⟩
  | _, _ => ⟨400, [], none, none⟩

/-- /api/create-points-checkout, part_004 lines 310-348: validates only
presence (`!points || !userId`), then creates one session with
`unit_amount: 10` and `quantity: points` and returns its URL. There is
no bounds check. -/
def createPointsCheckout004 (gateway : GatewayReq → GatewaySession)
    (points : JsNum) (userId : Option String) : CheckoutOutcome :=
  match points, userId with
  | some p, some uid =>
    if p = 0 ∨ uid = "" then ⟨400, [], none, none⟩
    else
      let req : GatewayReq := ⟨10, p, uid, toString p⟩
      ⟨200, [req], some (gateway req).url, none⟩
  | _, _ => ⟨400, [], none, none⟩

/-- The checkout-session module of api/webhook.js second document,
lines 75-118: requires points, userId and email, then creates one
session with `unit_amount: 10` and `quantity: points` and returns its
URL. -/
def createCheckoutSessionApi (gateway : GatewayReq → GatewaySession)
    (points : JsNum) (userId email : Option String) : CheckoutOutcome :=
  match points, userId, email with
  | some p, some uid, some em =>
    if p = 0 ∨ uid = "" ∨ em = "" then ⟨400, [], none, none⟩
    else
      let req : GatewayReq := ⟨10, p, uid, toString p⟩
      ⟨200, [req], some (gateway req).url, none⟩
  | _, _, _ => ⟨400, [], none, none⟩

/-- /api/payment-success, api/payment-success.js lines 10-24 (same shape
as server.js lines 136-172): for a retrieved session whose
`payment_status` is `paid`, reads the stored balance (`|| 0`), adds
`parseInt(metadata.credits)`, and writes the new balance back with a
plain `kv.set` outside any transaction. -/
def paymentSuccessHandler (sess : Session) (kv : List (String × JsNum)) :
    Nat × List (String × JsNum) :=
  if sess.payment_status = "paid" then
    let uid := jsKeyStr sess.metaUserId
    let credits : JsNum :=
      match sess.metaCredits with
      | some str => parseIntJs str
      | none => none
    let currentCredits : Int :=
      match lookupStr kv uid with
      | some v => jsOrZero v
      | none => 0
    (200, setStr kv uid (jsAdd (some currentCredits) credits))
  else (400, kv)

/-- /api/check-credits, server.js lines 86-88 and api/check-credits.js
lines 9-11: `credits[userId] || 5` — a falsy stored value (absent, 0 or
NaN) yields the default 5, otherwise the stored value. -/
def checkCredits (store : List (String × JsNum)) (userId : String) : Int :=
  match lookupStr store userId with
  | some (some x) => if x = 0 then 5 else x
  | _ => 5

/-- C1: the claim of exactly-once crediting fails on the code. The
handleSuccessfulPayment of server.js lines 1170-1218 performs no lookup
of an existing Purchase Record: delivering the same verified settlement
notification (session id cs_1, metadata userId u1, points 100) twice
credits the balance twice (0 to 200, not 100) and creates two completed
purchase records for the same transaction id, instead of one credit and
a success-no-op redelivery. -/
theorem C1_double_credit_eval :
    (let s0 : Db := ⟨[("u1", some 0)], [], [], [], []⟩
     let sess : Session :=
       ⟨"cs_1", "paid", some "u1", some "u1", some "100", none, 1000⟩
     let s1 := (runTx (handleSuccessfulPayment1170 sess) none s0).1
     let s2 := (runTx (handleSuccessfulPayment1170 sess) none s1).1
     getUser s2 "u1" = some (some 200) ∧
     (s2.purchases.filter
        (fun r => r.sessionId == "cs_1" && r.status == "completed")).length
       = 2) := by
  decide

/-- C2 counterexample: the credit operation of api/webhook.js lines
15-38 (cited by the claim) updates the balance without creating any
Purchase Record: starting from balance 10 for user u1, a verified paid
notification for 5 points leaves balance 15 with zero purchase records
anywhere, so the outcome is neither the old balance with no new record
nor the new balance with its one matching record. -/
theorem C2_counterexample_api_no_record :
    (let s0 : Db := ⟨[("u1", some 10)], [], [], [], []⟩
     let sess : Session :=
       ⟨"cs_2", "paid", some "u1", some "u1", some "5", none, 50⟩
     let s1 := (runTx (handleSuccessfulPaymentApi sess) none s0).1
     s1.users = [("u1", some 15)] ∧ s1.purchases = [] ∧
     s1.userPurchases = [] ∧ s1.userPurchases004 = [] ∧
     s1.users ≠ s0.users) := by
  decide

/-- C2 (amended): in the transaction-based handler of server.js lines
433-476 the balance write and the completed Purchase Record are staged
in one transaction, so every observable outcome is all-or-nothing: the
state is either fully unchanged, or has the new balance together with
exactly the one new matching completed purchase record appended. -/
theorem C2_atomic_server433 (s : Db) (sess : Session)
    (transient : Option String) :
    (runTx (handleSuccessfulPayment433 sess) transient s).1 = s ∨
    ∃ uid, sess.metaUserId = some uid ∧
      (runTx (handleSuccessfulPayment433 sess) transient s).1 =
        { s with
          users := setStr s.users uid
            (userDocNewPoints s uid (parsedMetaPoints sess)),
          purchases := s.purchases ++
            [⟨uid, parsedMetaPoints sess, sess.amount_total, sess.id,
              "completed"⟩] } := by
  cases transient with
  | some e => exact Or.inl rfl
  | none =>
    cases h : sess.metaUserId with
    | none =>
      left
      simp [runTx, handleSuccessfulPayment433, h]
    | some uid =>
      by_cases hu : uid = ""
      · left
        simp [runTx, handleSuccessfulPayment433, h, hu]
      · right
        refine ⟨uid, rfl, ?_⟩
        simp [runTx, handleSuccessfulPayment433, h, hu, applyWrites,
          applyWrite]

/-- C3: a webhook request whose signature does not verify against the
shared secret over the raw payload bytes is rejected whole with HTTP
400 by both cited webhook endpoints, with no metadata processed, no
transaction attempt and no state change. -/
theorem C3_unverified_signature_rejected
    (hmac : String → String → String) (secret rawBody sig : String)
    (parse : String → Option Event)
    (stage : Session → Db → Except String (List Write))
    (transient : Option String) (s : Db)
    (h : hmac secret rawBody ≠ sig) :
    webhookEndpoint705 hmac secret rawBody sig parse stage transient s
      = ⟨400, s, 0⟩ ∧
    webhookEndpointApi hmac secret rawBody sig parse transient s
      = ⟨400, s, 0⟩ := by
  constructor <;> simp [webhookEndpoint705, webhookEndpointApi, h]

/-- C3 witness: a concrete request whose signature header does not match
the recomputed signature is rejected with 400 and an unchanged state. -/
theorem C3_unverified_signature_rejected_witness :
    (fun k b : String => k ++ b) "sec" "payload" ≠ "bad" ∧
    (webhookEndpoint705 (fun k b : String => k ++ b) "sec" "payload" "bad"
        (fun _ => none) handleSuccessfulPayment1170 none
        ⟨[], [], [], [], []⟩ = ⟨400, ⟨[], [], [], [], []⟩, 0⟩ ∧
     webhookEndpointApi (fun k b : String => k ++ b) "sec" "payload" "bad"
        (fun _ => none) none ⟨[], [], [], [], []⟩
       = ⟨400, ⟨[], [], [], [], []⟩, 0⟩) := by
  refine ⟨by decide, ?_⟩
  exact C3_unverified_signature_rejected (fun k b : String => k ++ b)
    "sec" "payload" "bad" (fun _ => none) handleSuccessfulPayment1170 none
    ⟨[], [], [], [], []⟩ (by decide)

/-- C4: the claim that a non-positive parsed points value causes an
unrecoverable error with no balance mutation fails on the code. With
metadata points "-5" on a verified paid session, the validation of
part_004 lines 351-406 (string truthiness) and of api/webhook.js lines
15-24 (number truthiness, which only catches 0 and NaN) both let the
value through, the transaction commits, and the balance of user u1
decreases from 10 to 5. -/
theorem C4_negative_points_eval :
    (let s0 : Db := ⟨[("u1", some 10)], [], [], [], []⟩
     let sess : Session :=
       ⟨"cs_4", "paid", some "u1", some "u1", some "-5", none, 0⟩
     let r004 := runTx (handleSuccessfulPayment004 sess) none s0
     let rApi := runTx (handleSuccessfulPaymentApi sess) none s0
     getUser r004.1 "u1" = some (some 5) ∧ r004.2 = none ∧
     getUser rApi.1 "u1" = some (some 5) ∧ rApi.2 = none) := by
  decide

/-- C5 counterexample: the payment-success lookup handler
(api/payment-success.js) writes the stored balance directly: on a
retrieved paid session with metadata credits 50 it overwrites the
stored balance 30 of user u1 with 80 by a plain read-then-set outside
any transaction, so the atomic credit path is not the exclusive writer
of the balance. -/
theorem C5_counterexample_payment_success_writes :
    paymentSuccessHandler ⟨"cs_5", "paid", none, some "u1", none,
        some "50", 500⟩ [("u1", some 30)]
      = (200, [("u1", some 80)]) ∧
    ([("u1", some 80)] : List (String × JsNum)) ≠ [("u1", some 30)] := by
  decide

/-- C5 (amended): the stored balance is not mutated exclusively through
the atomic credit path: for every retrieved session whose payment
status is paid, the payment-success lookup handler writes the balance
key of the metadata user directly, setting it to the current stored
balance (or 0) plus the parsed credits value, outside any transaction. -/
theorem C5_payment_success_direct_write (sess : Session)
    (kv : List (String × JsNum)) (h : sess.payment_status = "paid") :
    paymentSuccessHandler sess kv =
      (200, setStr kv (jsKeyStr sess.metaUserId)
        (jsAdd
          (some (match lookupStr kv (jsKeyStr sess.metaUserId) with
                 | some v => jsOrZero v
                 | none => 0))
          (match sess.metaCredits with
           | some str => parseIntJs str
           | none => none))) := by
  simp [paymentSuccessHandler, h]

/-- C5 witness: on a concrete paid session the payment-success handler
performs the direct balance write. -/
theorem C5_payment_success_direct_write_witness :
    (Session.payment_status
        ⟨"cs_5w", "paid", none, some "u2", none, some "7", 70⟩ = "paid") ∧
    paymentSuccessHandler
        ⟨"cs_5w", "paid", none, some "u2", none, some "7", 70⟩
        [("u2", some 1)] =
      (200, setStr [("u2", some 1)]
        (jsKeyStr (some "u2"))
        (jsAdd
          (some (match lookupStr [("u2", some 1)] (jsKeyStr (some "u2")) with
                 | some v => jsOrZero v
                 | none => 0))
          (match some "7" with
           | some str => parseIntJs str
           | none => none))) := by
  refine ⟨rfl, ?_⟩
  exact C5_payment_success_direct_write
    ⟨"cs_5w", "paid", none, some "u2", none, some "7", 70⟩
    [("u2", some 1)] rfl

/-- C6 counterexample: no retry loop exists. On a verified paid
settlement notification whose atomic update fails transiently, the
webhook endpoint of server.js lines 705-745 attempts the transaction
exactly once (not 3-5 times) and immediately persists a failedPayments
record (capturing session id, error and metadata but no attempt count),
leaving the balance unchanged, contradicting the claimed
retry-then-record policy. -/
theorem C6_counterexample_no_retry :
    (let ev : Event := ⟨"checkout.session.completed",
       ⟨"cs_6", "paid", some "u1", some "u1", some "100", none, 1000⟩⟩
     let r := webhookEndpoint705 (fun _ b => b) "whsec" "raw" "raw"
       (fun _ => some ev) handleSuccessfulPayment1170
       (some "deadline exceeded") ⟨[("u1", some 0)], [], [], [], []⟩
     r.txAttempts = 1 ∧ r.status = 200 ∧
     r.state.failedPayments =
       [⟨"cs_6", "deadline exceeded", some "u1", some "100"⟩] ∧
     r.state.users = [("u1", some 0)]) := by
  decide

/-- C6 (amended): on a transient failure of the atomic update for a
verified paid settlement event, the handler makes no retries: the
server.js lines 705-745 endpoint attempts the transaction exactly once,
immediately appends one failedPayments record with the session id, the
error message and the metadata (no attempt count), and has already
acknowledged 200; the api/webhook.js endpoint also attempts exactly
once and merely answers 500, recording nothing. -/
theorem C6_single_attempt_failure_record
    (hmac : String → String → String) (secret rawBody sig : String)
    (parse : String → Option Event)
    (stage : Session → Db → Except String (List Write))
    (e : String) (s : Db) (ev : Event)
    (hsig : hmac secret rawBody = sig) (hparse : parse rawBody = some ev)
    (htype : ev.type = "checkout.session.completed")
    (hpaid : ev.session.payment_status = "paid") :
    webhookEndpoint705 hmac secret rawBody sig parse stage (some e) s =
      ⟨200,
       { s with failedPayments := s.failedPayments ++
           [⟨ev.session.id, e, ev.session.metaUserId,
             ev.session.metaPoints⟩] },
       1⟩ ∧
    webhookEndpointApi hmac secret rawBody sig parse (some e) s
      = ⟨500, s, 1⟩ := by
  constructor <;>
    simp [webhookEndpoint705, webhookEndpointApi, runTx, hsig, hparse,
      htype, hpaid]

/-- C6 witness: a concrete transiently failing delivery is attempted
once, gets one failure record from the server.js endpoint and a 500
from the api endpoint. -/
theorem C6_single_attempt_failure_record_witness :
    ((fun _ b : String => b) "whsec" "raw" = "raw" ∧
     (fun _ : String =>
        some (⟨"checkout.session.completed",
          ⟨"cs_6w", "paid", some "u3", some "u3", some "20", none, 200⟩⟩ :
          Event)) "raw"
       = some ⟨"checkout.session.completed",
          ⟨"cs_6w", "paid", some "u3", some "u3", some "20", none, 200⟩⟩ ∧
     Event.type (⟨"checkout.session.completed",
        ⟨"cs_6w", "paid", some "u3", some "u3", some "20", none, 200⟩⟩ :
        Event) = "checkout.session.completed" ∧
     Session.payment_status
        ⟨"cs_6w", "paid", some "u3", some "u3", some "20", none, 200⟩
       = "paid") ∧
    (webhookEndpoint705 (fun _ b => b) "whsec" "raw" "raw"
        (fun _ => some ⟨"checkout.session.completed",
          ⟨"cs_6w", "paid", some "u3", some "u3", some "20", none, 200⟩⟩)
        handleSuccessfulPayment1170 (some "contention")
        ⟨[], [], [], [], []⟩ =
      ⟨200,
       { (⟨[], [], [], [], []⟩ : Db) with failedPayments :=
           (⟨[], [], [], [], []⟩ : Db).failedPayments ++
             [⟨"cs_6w", "contention", some "u3", some "20"⟩] },
       1⟩ ∧
     webhookEndpointApi (fun _ b => b) "whsec" "raw" "raw"
        (fun _ => some ⟨"checkout.session.completed",
          ⟨"cs_6w", "paid", some "u3", some "u3", some "20", none, 200⟩⟩)
        (some "contention") ⟨[], [], [], [], []⟩
       = ⟨500, ⟨[], [], [], [], []⟩, 1⟩) := by
  refine ⟨⟨rfl, rfl, rfl, rfl⟩, ?_⟩
  exact C6_single_attempt_failure_record (fun _ b => b) "whsec" "raw" "raw"
    (fun _ => some ⟨"checkout.session.completed",
      ⟨"cs_6w", "paid", some "u3", some "u3", some "20", none, 200⟩⟩)
    handleSuccessfulPayment1170 "contention" ⟨[], [], [], [], []⟩
    ⟨"checkout.session.completed",
      ⟨"cs_6w", "paid", some "u3", some "u3", some "20", none, 200⟩⟩
    rfl rfl rfl rfl

/-- C7 counterexample: the create-points-checkout variant of part_004
lines 310-348 (cited by the claim) has no bounds check: a request for
6000 points (above MAX_POINTS = 5000) is accepted with 200 and produces
a gateway call, instead of being rejected with no call. -/
theorem C7_counterexample_part004_no_bounds :
    createPointsCheckout004 (fun _ => ⟨"sess_id", "redirect_url"⟩)
        (some 6000) (some "u1") =
      ⟨200, [⟨10, 6000, "u1", "6000"⟩], some "redirect_url", none⟩ ∧
    (5000 : Int) < 6000 := by
  constructor
  · rfl
  · decide

/-- C7 (amended): the server.js create-points-checkout handlers (lines
803-839 and 384-420) reject every request with points below 10 or above
5000 with HTTP 400 and make no gateway call; the part_004 variant
validates only presence and does call the gateway for out-of-range
points. -/
theorem C7_server_bounds_reject (gateway : GatewayReq → GatewaySession)
    (p : Int) (userId : Option String) (h : p < 10 ∨ 5000 < p) :
    createPointsCheckout803 gateway (some p) userId
      = ⟨400, [], none, none⟩ ∧
    createPointsCheckout384 gateway (some p) userId
      = ⟨400, [], none, none⟩ := by
  cases userId with
  | none => exact ⟨rfl, rfl⟩
  | some uid =>
    have hc : p = 0 ∨ uid = "" ∨ p < 10 ∨ 5000 < p := by
      rcases h with h | h
      · exact Or.inr (Or.inr (Or.inl h))
      · exact Or.inr (Or.inr (Or.inr h))
    constructor <;>
      simp [createPointsCheckout803, createPointsCheckout384, hc]

/-- C7 witness: a concrete request for 6 points is rejected with 400
and no gateway call by both server.js handlers. -/
theorem C7_server_bounds_reject_witness :
    ((6 : Int) < 10 ∨ (5000 : Int) < 6) ∧
    (createPointsCheckout803 (fun _ => ⟨"sid", "surl"⟩) (some 6)
        (some "u1") = ⟨400, [], none, none⟩ ∧
     createPointsCheckout384 (fun _ => ⟨"sid", "surl"⟩) (some 6)
        (some "u1") = ⟨400, [], none, none⟩) := by
  refine ⟨Or.inl (by decide), ?_⟩
  exact C7_server_bounds_reject (fun _ => ⟨"sid", "surl"⟩) 6 (some "u1")
    (Or.inl (by decide))

/-- C8: for every valid checkout request (points within bounds, user id
and email present) the cited handlers make exactly one gateway call
whose line item totals points * 10 minor units (unit price 10), whose
metadata is the user id and the stringified points, and return the
gateway redirect URL. -/
theorem C8_checkout_price_and_metadata (gateway : GatewayReq → GatewaySession)
    (p : Int) (uid em : String)
    (hlo : 10 ≤ p) (hhi : p ≤ 5000) (hu : uid ≠ "") (he : em ≠ "") :
    createPointsCheckout384 gateway (some p) (some uid) =
      ⟨200, [⟨p * 10, 1, uid, toString p⟩],
       some (gateway ⟨p * 10, 1, uid, toString p⟩).url, none⟩ ∧
    createCheckoutSessionApi gateway (some p) (some uid) (some em) =
      ⟨200, [⟨10, p, uid, toString p⟩],
       some (gateway ⟨10, p, uid, toString p⟩).url, none⟩ ∧
    totalMinorUnits ⟨p * 10, 1, uid, toString p⟩ = p * 10 ∧
    totalMinorUnits ⟨10, p, uid, toString p⟩ = p * 10 := by
  have h384 : ¬ (p = 0 ∨ uid = "" ∨ p < 10 ∨ 5000 < p) := by
    push_neg
    exact ⟨by omega, hu, by omega, by omega⟩
  have hapi : ¬ (p = 0 ∨ uid = "" ∨ em = "") := by
    push_neg
    exact ⟨by omega, hu, he⟩
  refine ⟨?_, ?_, ?_, ?_⟩
  · simp [createPointsCheckout384, h384]
  · simp [createCheckoutSessionApi, hapi]
  · simp [totalMinorUnits]
  · show (10 : Int) * p = p * 10
    ring

/-- C8 witness: a concrete valid request for 100 points produces one
gateway call totalling 1000 minor units with the right metadata and the
gateway URL echoed back. -/
theorem C8_checkout_price_and_metadata_witness :
    ((10 : Int) ≤ 100 ∧ (100 : Int) ≤ 5000 ∧ "u1" ≠ "" ∧ "a@b" ≠ "") ∧
    (createPointsCheckout384 (fun _ => ⟨"sid", "theurl"⟩) (some 100)
        (some "u1") =
      ⟨200, [⟨100 * 10, 1, "u1", toString (100 : Int)⟩],
       some ((fun _ : GatewayReq => (⟨"sid", "theurl"⟩ : GatewaySession))
           ⟨100 * 10, 1, "u1", toString (100 : Int)⟩).url, none⟩ ∧
     createCheckoutSessionApi (fun _ => ⟨"sid", "theurl"⟩) (some 100)
        (some "u1") (some "a@b") =
      ⟨200, [⟨10, 100, "u1", toString (100 : Int)⟩],
       some ((fun _ : GatewayReq => (⟨"sid", "theurl"⟩ : GatewaySession))
           ⟨10, 100, "u1", toString (100 : Int)⟩).url, none⟩ ∧
     totalMinorUnits ⟨100 * 10, 1, "u1", toString (100 : Int)⟩ = 100 * 10 ∧
     totalMinorUnits ⟨10, 100, "u1", toString (100 : Int)⟩ = 100 * 10) := by
  refine ⟨⟨by decide, by decide, by decide, by decide⟩, ?_⟩
  exact C8_checkout_price_and_metadata (fun _ => ⟨"sid", "theurl"⟩) 100
    "u1" "a@b" (by decide) (by decide) (by decide) (by decide)

/-- C9: a stored balance of exactly 0 is reported as the default 5 by
the balance query (`credits[userId] || 5`), the same answer as for an
absent account, so the two are indistinguishable at the query
interface. -/
theorem C9_zero_balance_default (store store2 : List (String × JsNum))
    (uid : String)
    (h0 : lookupStr store uid = some (some 0))
    (habs : lookupStr store2 uid = none) :
    checkCredits store uid = 5 ∧ checkCredits store2 uid = 5 := by
  constructor <;> simp [checkCredits, h0, habs]

/-- C9 witness: a store holding balance 0 for user u and an empty store
both answer 5. -/
theorem C9_zero_balance_default_witness :
    (lookupStr [("u", (some 0 : JsNum))] "u" = some (some 0) ∧
     lookupStr ([] : List (String × JsNum)) "u" = none) ∧
    (checkCredits [("u", (some 0 : JsNum))] "u" = 5 ∧
     checkCredits ([] : List (String × JsNum)) "u" = 5) := by
  refine ⟨⟨rfl, rfl⟩, ?_⟩
  exact C9_zero_balance_default [("u", (some 0 : JsNum))] [] "u" rfl rfl

/-- C10: a verified checkout.session.completed event whose
payment_status is not paid is acknowledged with 200 by the webhook
endpoint, with no transaction attempt and a fully unchanged database:
an unpaid session never credits points or writes a purchase record. -/
theorem C10_unpaid_session_ignored
    (hmac : String → String → String) (secret rawBody sig : String)
    (parse : String → Option Event)
    (stage : Session → Db → Except String (List Write))
    (transient : Option String) (s : Db) (ev : Event)
    (hsig : hmac secret rawBody = sig) (hparse : parse rawBody = some ev)
    (htype : ev.type = "checkout.session.completed")
    (hunpaid : ev.session.payment_status ≠ "paid") :
    webhookEndpoint705 hmac secret rawBody sig parse stage transient s
      = ⟨200, s, 0⟩ := by
  simp [webhookEndpoint705, hsig, hparse, htype, hunpaid]

/-- C10 witness: a concrete verified completed event with
payment_status unpaid is acknowledged with the state untouched. -/
theorem C10_unpaid_session_ignored_witness :
    ((fun _ b : String => b) "whsec" "raw" = "raw" ∧
     (fun _ : String =>
        some (⟨"checkout.session.completed",
          ⟨"cs_10", "unpaid", some "u1", some "u1", some "100", none,
            1000⟩⟩ : Event)) "raw"
       = some ⟨"checkout.session.completed",
          ⟨"cs_10", "unpaid", some "u1", some "u1", some "100", none,
            1000⟩⟩ ∧
     Event.type (⟨"checkout.session.completed",
        ⟨"cs_10", "unpaid", some "u1", some "u1", some "100", none,
          1000⟩⟩ : Event) = "checkout.session.completed" ∧
     Session.payment_status
        ⟨"cs_10", "unpaid", some "u1", some "u1", some "100", none, 1000⟩
       ≠ "paid") ∧
    webhookEndpoint705 (fun _ b => b) "whsec" "raw" "raw"
        (fun _ => some ⟨"checkout.session.completed",
          ⟨"cs_10", "unpaid", some "u1", some "u1", some "100", none,
            1000⟩⟩)
        handleSuccessfulPayment1170 none
        ⟨[("u1", some 0)], [], [], [], []⟩
      = ⟨200, ⟨[("u1", some 0)], [], [], [], []⟩, 0⟩ := by
  refine ⟨⟨rfl, rfl, rfl, by decide⟩, ?_⟩
  exact C10_unpaid_session_ignored (fun _ b => b) "whsec" "raw" "raw"
    (fun _ => some ⟨"checkout.session.completed",
      ⟨"cs_10", "unpaid", some "u1", some "u1", some "100", none, 1000⟩⟩)
    handleSuccessfulPayment1170 none ⟨[("u1", some 0)], [], [], [], []⟩
    ⟨"checkout.session.completed",
      ⟨"cs_10", "unpaid", some "u1", some "u1", some "100", none, 1000⟩⟩
    rfl rfl rfl (by decide)
